import Mathlib

/-!
Verification of the incline projectile simulation core.

The development shallowly embeds the physics utilities (`toRad`,
`getInitialState`, `calculatePhysics`, `checkCollision`,
`predictTrajectory`, `projectToIncline`) and the per-projectile state
transitions of the application layer (creation, config edit, environment
change, launch, launch-all, reset-all, and the per-frame animation tick),
with JavaScript numbers modelled as real numbers.
-/

namespace InclineSim

open Real
open Classical

/-- A 2-D vector, source type `Vector2`. -/
@[ext]
structure Vector2 where
  x : ℝ
  y : ℝ

/-- Source enum `StartPosition`. -/
inductive StartPosition where
  | Bottom
  | Top
deriving DecidableEq

/-- Source interface `EnvironmentConfig`. -/
structure EnvironmentConfig where
  angleIncline : ℝ
  gravity : ℝ
  scaleVelocity : ℝ
  scaleDisplacement : ℝ
  timeScale : ℝ
  showPrediction : Bool

/-- Source interface `ProjectileConfig`. -/
structure ProjectileConfig where
  id : String
  name : String
  color : String
  v0 : ℝ
  angleLaunch : ℝ
  startPos : StartPosition

/-- Source interface `SimulationState`. -/
@[ext]
structure SimulationState where
  t : ℝ
  isPlaying : Bool
  isFinished : Bool
  position : Vector2
  startPosition : Vector2
  velocity : Vector2
  path : List Vector2

/-- Source constant `INCLINE_LENGTH = 100`. -/
def INCLINE_LENGTH : ℝ := 100

/-- Source `toRad`: degrees to radians. -/
noncomputable def toRad (deg : ℝ) : ℝ := deg * π / 180

/-- Source `toDeg`: radians to degrees. -/
noncomputable def toDeg (rad : ℝ) : ℝ := rad * 180 / π

/-- Result record of `getInitialState`. -/
structure InitState where
  pos : Vector2
  vel : Vector2

/-- Source `getInitialState`: start position and start velocity from the
launch configuration and the environment. -/
noncomputable def getInitialState (pConfig : ProjectileConfig)
    (envConfig : EnvironmentConfig) : InitState :=
  let theta := toRad envConfig.angleIncline
  let phi := toRad pConfig.angleLaunch
  let totalAngle := theta + phi
  let startX := if pConfig.startPos = StartPosition.Top then
      INCLINE_LENGTH * Real.cos theta else 0
  let startY := if pConfig.startPos = StartPosition.Top then
      INCLINE_LENGTH * Real.sin theta else 0
  { pos := { x := startX, y := startY },
    vel := { x := pConfig.v0 * Real.cos totalAngle,
             y := pConfig.v0 * Real.sin totalAngle } }

/-- Result record of `calculatePhysics`. -/
structure PhysicsResult where
  position : Vector2
  velocity : Vector2

/-- Source `calculatePhysics`: closed-form kinematics at elapsed time `t`. -/
noncomputable def calculatePhysics (t : ℝ) (env : EnvironmentConfig)
    (initialPos initialVel : Vector2) : PhysicsResult :=
  { position := { x := initialPos.x + initialVel.x * t,
                  y := initialPos.y + initialVel.y * t - 0.5 * env.gravity * t * t },
    velocity := { x := initialVel.x,
                  y := initialVel.y - env.gravity * t } }

/-- Source `checkCollision`: the point is on or through the incline surface,
within the usable extent of the ramp. -/
def checkCollision (pos : Vector2) (inclineAngleDeg : ℝ) : Prop :=
  let theta := toRad inclineAngleDeg
  let perpDist := -pos.x * Real.sin theta + pos.y * Real.cos theta
  let paraDist := pos.x * Real.cos theta + pos.y * Real.sin theta
  perpDist ≤ 0.05 ∧ (paraDist ≥ -5 ∧ paraDist ≤ INCLINE_LENGTH + 20)

/-- The loop body of source `predictTrajectory`: `fuel` bounds the number of
remaining iterations (the source loop runs `t = 0, 0.1, ..., ≤ 10`, hence at
most 101 iterations, so any fuel of at least 102 makes the `t ≤ 10` test the
binding exit condition, exactly as in the source). -/
noncomputable def predictLoop (env : EnvironmentConfig) (pos vel : Vector2) :
    ℕ → ℝ → List Vector2
  | 0, _ => []
  | fuel + 1, t =>
    if t ≤ 10 then
      let res := calculatePhysics t env pos vel
      res.position ::
        (if (checkCollision res.position env.angleIncline ∧ t > 0.1) ∨
            res.position.y < -10 then
          []
        else
          predictLoop env pos vel fuel (t + 0.1))
    else []

/-- Source `predictTrajectory`: sample the closed-form trajectory every
0.1 s up to 10 s, stopping at the first honored collision or once the point
falls below y = -10. -/
noncomputable def predictTrajectory (pConfig : ProjectileConfig)
    (env : EnvironmentConfig) : List Vector2 :=
  let init := getInitialState pConfig env
  predictLoop env init.pos init.vel 102 0

/-- One component record of `projectToIncline`. -/
structure InclineComponent where
  x : ℝ
  y : ℝ
  mag : ℝ

/-- Result record of `projectToIncline`. -/
structure Decomposition where
  parallel : InclineComponent
  perpendicular : InclineComponent

/-- Source `projectToIncline`: decompose a vector into incline-parallel and
incline-perpendicular components. -/
noncomputable def projectToIncline (vec : Vector2) (inclineAngleDeg : ℝ) :
    Decomposition :=
  let theta := toRad inclineAngleDeg
  let uPara : Vector2 := { x := Real.cos theta, y := Real.sin theta }
  let uPerp : Vector2 := { x := -Real.sin theta, y := Real.cos theta }
  let vParaMag := vec.x * uPara.x + vec.y * uPara.y
  let vPerpMag := vec.x * uPerp.x + vec.y * uPerp.y
  { parallel := { x := uPara.x * vParaMag, y := uPara.y * vParaMag, mag := vParaMag },
    perpendicular := { x := uPerp.x * vPerpMag, y := uPerp.y * vPerpMag, mag := vPerpMag } }

/-- State part of `createProjectile` in App.tsx. -/
noncomputable def createState (config : ProjectileConfig)
    (env : EnvironmentConfig) : SimulationState :=
  let init := getInitialState config env
  { t := 0, isPlaying := false, isFinished := false,
    position := init.pos, startPosition := init.pos,
    velocity := init.vel, path := [init.pos] }

/-- State part of `updateProjectileConfig` in App.tsx: a config edit resets
the state from the freshly resolved initial condition. -/
noncomputable def updateConfigState (newConfig : ProjectileConfig)
    (env : EnvironmentConfig) (s : SimulationState) : SimulationState :=
  let init := getInitialState newConfig env
  { s with t := 0, isPlaying := false, isFinished := false,
           position := init.pos, startPosition := init.pos,
           velocity := init.vel, path := [init.pos] }

/-- State part of the environment-change effect in App.tsx: flying objects
are left alone, the rest get re-resolved start data. -/
noncomputable def envChangeState (config : ProjectileConfig)
    (env : EnvironmentConfig) (s : SimulationState) : SimulationState :=
  if s.isPlaying then s
  else
    let init := getInitialState config env
    { s with position := init.pos, startPosition := init.pos,
             velocity := init.vel, path := [init.pos] }

/-- State part of `launchProjectile` in App.tsx: pause when playing,
relaunch from a fresh initial state when finished, play otherwise. -/
noncomputable def launchState (config : ProjectileConfig)
    (env : EnvironmentConfig) (s : SimulationState) : SimulationState :=
  if s.isPlaying then { s with isPlaying := false }
  else if s.isFinished then
    let init := getInitialState config env
    { t := 0, isPlaying := true, isFinished := false,
      position := init.pos, startPosition := init.pos,
      velocity := init.vel, path := [init.pos] }
  else { s with isPlaying := true }

/-- State part of `launchAll` in App.tsx. -/
noncomputable def launchAllState (config : ProjectileConfig)
    (env : EnvironmentConfig) : SimulationState :=
  let init := getInitialState config env
  { t := 0, isPlaying := true, isFinished := false,
    position := init.pos, startPosition := init.pos,
    velocity := init.vel, path := [init.pos] }

/-- State part of `resetAll` in App.tsx. -/
noncomputable def resetAllState (config : ProjectileConfig)
    (env : EnvironmentConfig) : SimulationState :=
  let init := getInitialState config env
  { t := 0, isPlaying := false, isFinished := false,
    position := init.pos, startPosition := init.pos,
    velocity := init.vel, path := [init.pos] }

/-- One projectile update of the `animate` loop in App.tsx. -/
noncomputable def tick (env : EnvironmentConfig) (config : ProjectileConfig)
    (s : SimulationState) : SimulationState :=
  if ¬s.isPlaying ∨ s.isFinished then s
  else
    let dt := 1 / 60 * env.timeScale
    let nextT := s.t + dt
    let init := getInitialState config env
    let physics := calculatePhysics nextT env s.startPosition init.vel
    let hasHit := checkCollision physics.position env.angleIncline
    if hasHit ∧ nextT > 0.1 then
      { s with t := nextT, position := physics.position,
               velocity := { x := 0, y := 0 },
               isPlaying := false, isFinished := true }
    else if physics.position.y < -30 ∨ physics.position.x > 250 then
      { s with isPlaying := false, isFinished := true }
    else
      let shouldAddPoint := round (nextT * 60) % 5 = 0
      let newPath := if shouldAddPoint then s.path ++ [physics.position] else s.path
      { s with t := nextT, position := physics.position,
               velocity := physics.velocity, path := newPath }

/-- The legal flag combinations exclude playing-and-finished. -/
def FlagInv (s : SimulationState) : Prop :=
  ¬(s.isPlaying = true ∧ s.isFinished = true)

/-! Concrete configurations used by scenario claims and witnesses. -/

/-- Environment of the spec scenarios: 30 degree incline, g = 9.81. -/
noncomputable def envC7 : EnvironmentConfig :=
  { angleIncline := 30, gravity := 9.81, scaleVelocity := 0.5,
    scaleDisplacement := 1, timeScale := 1, showPrediction := true }

/-- Scenario configuration: v0 = 25, launch 45 degrees, Bottom start. -/
noncomputable def cfgC7 : ProjectileConfig :=
  { id := "p1", name := "A", color := "red", v0 := 25, angleLaunch := 45,
    startPos := StartPosition.Bottom }

/-- Scenario configuration: Top start on the 30 degree incline. -/
noncomputable def cfgTop : ProjectileConfig :=
  { id := "p2", name := "B", color := "blue", v0 := 25, angleLaunch := 45,
    startPos := StartPosition.Top }

/-- A degenerate environment used by witnesses: flat incline, g = 10,
time scale 60 so that one tick advances one second. -/
noncomputable def envW : EnvironmentConfig :=
  { angleIncline := 0, gravity := 10, scaleVelocity := 0.5,
    scaleDisplacement := 1, timeScale := 60, showPrediction := true }

/-- A degenerate configuration used by witnesses: zero launch speed. -/
noncomputable def cfgW : ProjectileConfig :=
  { id := "w", name := "W", color := "gray", v0 := 0, angleLaunch := 0,
    startPos := StartPosition.Bottom }

/-! Concrete states used by state-machine witnesses. -/

/-- An idle concrete state. -/
def sIdle : SimulationState :=
  { t := 0, isPlaying := false, isFinished := false, position := ⟨0, 0⟩,
    startPosition := ⟨0, 0⟩, velocity := ⟨0, 0⟩, path := [] }

/-- A playing concrete state started at the origin, one second in. -/
def sPlay : SimulationState :=
  { t := 1, isPlaying := true, isFinished := false, position := ⟨0, 0⟩,
    startPosition := ⟨0, 0⟩, velocity := ⟨0, 0⟩, path := [] }

/-- A finished concrete state with stale pre-collision data. -/
def sFin : SimulationState :=
  { t := 3, isPlaying := false, isFinished := true, position := ⟨7, 7⟩,
    startPosition := ⟨1, 1⟩, velocity := ⟨9, 9⟩, path := [⟨7, 7⟩] }

/-- A playing concrete state whose next step is far out of bounds. -/
def sOob : SimulationState :=
  { t := 0, isPlaying := true, isFinished := false, position := ⟨300, 100⟩,
    startPosition := ⟨300, 100⟩, velocity := ⟨0, 0⟩, path := [] }

/-! Numeric bounds on the square roots appearing in the trigonometric
closed forms. -/

lemma sqrt2_gt : (1.4142 : ℝ) < Real.sqrt 2 :=
  (Real.lt_sqrt (by norm_num)).mpr (by norm_num)

lemma sqrt2_lt : Real.sqrt 2 < 1.41422 :=
  (Real.sqrt_lt' (by norm_num)).mpr (by norm_num)

lemma sqrt3_gt : (1.73205 : ℝ) < Real.sqrt 3 :=
  (Real.lt_sqrt (by norm_num)).mpr (by norm_num)

lemma sqrt3_lt : Real.sqrt 3 < 1.73206 :=
  (Real.sqrt_lt' (by norm_num)).mpr (by norm_num)

/-! Claim theorems. -/

/-- C1: for every elapsed time t ≥ 0, gravity g, initial position p0 and
initial velocity v0, the kinematic integrator `calculatePhysics` returns
position (p0.x + v0.x*t, p0.y + v0.y*t - 0.5*g*t^2) and velocity
(v0.x, v0.y - g*t); the horizontal position has no acceleration term. -/
theorem calculatePhysics_closed_form (t : ℝ) (ht : 0 ≤ t)
    (env : EnvironmentConfig) (p0 v0 : Vector2) :
    (calculatePhysics t env p0 v0).position =
      { x := p0.x + v0.x * t, y := p0.y + v0.y * t - 0.5 * env.gravity * t ^ 2 } ∧
    (calculatePhysics t env p0 v0).velocity =
      { x := v0.x, y := v0.y - env.gravity * t } := by
  refine ⟨?_, rfl⟩
  simp only [calculatePhysics]
  ext
  · rfl
  · show p0.y + v0.y * t - 0.5 * env.gravity * t * t = _
    ring

theorem calculatePhysics_closed_form_witness :
    (calculatePhysics 1 envW ⟨0, 0⟩ ⟨3, 4⟩).position =
      { x := (0 : ℝ) + 3 * 1, y := (0 : ℝ) + 4 * 1 - 0.5 * envW.gravity * 1 ^ 2 } ∧
    (calculatePhysics 1 envW ⟨0, 0⟩ ⟨3, 4⟩).velocity =
      { x := (3 : ℝ), y := (4 : ℝ) - envW.gravity * 1 } :=
  calculatePhysics_closed_form 1 (by norm_num) envW ⟨0, 0⟩ ⟨3, 4⟩

/-- C3: the initial-state resolver returns start position (0,0) for a
Bottom start and (100 cos θ, 100 sin θ) for a Top start, start velocity
(v0 cos(θ+β), v0 sin(θ+β)); a Top start on the 30 degree incline is at
about (86.6, 50.0). -/
theorem getInitialState_spec (cfg : ProjectileConfig) (env : EnvironmentConfig) :
    ((cfg.startPos = StartPosition.Bottom →
        (getInitialState cfg env).pos = { x := 0, y := 0 }) ∧
     (cfg.startPos = StartPosition.Top →
        (getInitialState cfg env).pos =
          { x := 100 * Real.cos (toRad env.angleIncline),
            y := 100 * Real.sin (toRad env.angleIncline) }) ∧
     (getInitialState cfg env).vel =
        { x := cfg.v0 * Real.cos (toRad env.angleIncline + toRad cfg.angleLaunch),
          y := cfg.v0 * Real.sin (toRad env.angleIncline + toRad cfg.angleLaunch) }) ∧
    (|(getInitialState cfgTop envC7).pos.x - 86.6| < 0.01 ∧
     (getInitialState cfgTop envC7).pos.y = 50) := by
  have hrad : toRad (30 : ℝ) = π / 6 := by unfold toRad; ring
  refine ⟨⟨fun h => ?_, fun h => ?_, rfl⟩, ?_, ?_⟩
  · simp [getInitialState, h]
  · simp [getInitialState, h, INCLINE_LENGTH]
  · have hx : (getInitialState cfgTop envC7).pos.x = 50 * Real.sqrt 3 := by
      simp only [getInitialState, cfgTop, envC7, INCLINE_LENGTH]
      norm_num [hrad, Real.cos_pi_div_six]
      ring
    rw [hx]
    rw [abs_sub_lt_iff]
    constructor <;> nlinarith [sqrt3_gt, sqrt3_lt]
  · simp only [getInitialState, cfgTop, envC7, INCLINE_LENGTH]
    norm_num [hrad, Real.sin_pi_div_six]

theorem getInitialState_spec_witness :
    (getInitialState cfgW envW).pos = { x := 0, y := 0 } ∧
    (getInitialState cfgTop envC7).pos =
      { x := 100 * Real.cos (toRad envC7.angleIncline),
        y := 100 * Real.sin (toRad envC7.angleIncline) } :=
  ⟨(getInitialState_spec cfgW envW).1.1 rfl,
   (getInitialState_spec cfgTop envC7).1.2.1 rfl⟩

/-- C4: `checkCollision` holds exactly when the signed perpendicular
distance to the incline line is at most the 0.05 tolerance and the parallel
distance lies between -5 and the incline length plus 20; at incline angle 0
every point (x, 0) with x in [-5, 120] collides and no point (x, 1) does. -/
theorem checkCollision_iff :
    (∀ (pos : Vector2) (angDeg : ℝ),
      checkCollision pos angDeg ↔
        ((projectToIncline pos angDeg).perpendicular.mag ≤ 0.05 ∧
         -5 ≤ (projectToIncline pos angDeg).parallel.mag ∧
         (projectToIncline pos angDeg).parallel.mag ≤ INCLINE_LENGTH + 20)) ∧
    (∀ x : ℝ, -5 ≤ x → x ≤ 120 → checkCollision { x := x, y := 0 } 0) ∧
    (∀ x : ℝ, ¬checkCollision { x := x, y := 1 } 0) := by
  have h0 : toRad 0 = 0 := by unfold toRad; ring
  refine ⟨fun pos angDeg => ?_, fun x h1 h2 => ?_, fun x => ?_⟩
  · simp only [checkCollision, projectToIncline]
    constructor
    · rintro ⟨hp, hq, hr⟩
      refine ⟨by linarith [hp], by linarith [hq], by linarith [hr]⟩
    · rintro ⟨hp, hq, hr⟩
      refine ⟨by linarith [hp], by linarith [hq], by linarith [hr]⟩
  · simp only [checkCollision, h0, Real.sin_zero, Real.cos_zero, INCLINE_LENGTH]
    norm_num
    exact ⟨h1, by linarith⟩
  · simp only [checkCollision, h0, Real.sin_zero, Real.cos_zero, INCLINE_LENGTH]
    norm_num

theorem checkCollision_iff_witness :
    checkCollision { x := 0, y := 0 } 0 ∧ ¬checkCollision { x := 7, y := 1 } 0 :=
  ⟨checkCollision_iff.2.1 0 (by norm_num) (by norm_num),
   checkCollision_iff.2.2 7⟩

/-- C5: for every vector and every incline angle in [0, 80] degrees, the
parallel and perpendicular component vectors returned by `projectToIncline`
sum back to the original vector exactly, the parallel unit vector being
(cos θ, sin θ) and the perpendicular one (-sin θ, cos θ). -/
theorem projectToIncline_roundtrip (v : Vector2) (angDeg : ℝ)
    (h0 : 0 ≤ angDeg) (h80 : angDeg ≤ 80) :
    (projectToIncline v angDeg).parallel.x +
      (projectToIncline v angDeg).perpendicular.x = v.x ∧
    (projectToIncline v angDeg).parallel.y +
      (projectToIncline v angDeg).perpendicular.y = v.y := by
  have h := Real.sin_sq_add_cos_sq (toRad angDeg)
  constructor
  · simp only [projectToIncline]
    linear_combination v.x * h
  · simp only [projectToIncline]
    linear_combination v.y * h

theorem projectToIncline_roundtrip_witness :
    (projectToIncline ⟨3, 4⟩ 30).parallel.x +
      (projectToIncline ⟨3, 4⟩ 30).perpendicular.x = (3 : ℝ) ∧
    (projectToIncline ⟨3, 4⟩ 30).parallel.y +
      (projectToIncline ⟨3, 4⟩ 30).perpendicular.y = (4 : ℝ) :=
  projectToIncline_roundtrip ⟨3, 4⟩ 30 (by norm_num) (by norm_num)

/-- C10: the collision predicate accepts the origin for every incline
angle (both distances are 0, inside the margins), so every Bottom-started
projectile begins at a position that already counts as colliding. -/
theorem checkCollision_origin :
    (∀ angDeg : ℝ, checkCollision { x := 0, y := 0 } angDeg) ∧
    (∀ (cfg : ProjectileConfig) (env : EnvironmentConfig),
      cfg.startPos = StartPosition.Bottom →
        checkCollision (getInitialState cfg env).pos env.angleIncline) := by
  constructor
  · intro angDeg
    simp only [checkCollision, INCLINE_LENGTH]
    norm_num
  · intro cfg env h
    simp [getInitialState, h, checkCollision, INCLINE_LENGTH]
    norm_num

theorem checkCollision_origin_witness :
    checkCollision (getInitialState cfgW envW).pos envW.angleIncline :=
  checkCollision_origin.2 cfgW envW rfl

/-- C2: a tick of a playing, unfinished projectile advances time by
1/60 times the time multiplier, re-resolves the initial velocity from the
current config and environment, integrates from the stored start position,
and on a collision hit past the 0.1 s grace period finishes with the
collision position committed, velocity zeroed and the final time recorded. -/
theorem tick_collision_finishes (env : EnvironmentConfig)
    (cfg : ProjectileConfig) (s : SimulationState)
    (hp : s.isPlaying = true) (hf : s.isFinished = false)
    (hc : checkCollision (calculatePhysics (s.t + 1 / 60 * env.timeScale) env
            s.startPosition (getInitialState cfg env).vel).position
            env.angleIncline)
    (hg : s.t + 1 / 60 * env.timeScale > 0.1) :
    tick env cfg s =
      { s with t := s.t + 1 / 60 * env.timeScale,
               position := (calculatePhysics (s.t + 1 / 60 * env.timeScale) env
                 s.startPosition (getInitialState cfg env).vel).position,
               velocity := { x := 0, y := 0 },
               isPlaying := false, isFinished := true } := by
  obtain ⟨t0, pl, fin, pos0, sp0, vel0, path0⟩ := s
  subst hp
  subst hf
  simp only [tick]
  rw [if_neg (show ¬(¬True ∨ ((false : Bool) = true)) by simp)]
  rw [if_pos ⟨hc, hg⟩]

theorem tick_collision_finishes_witness :
    tick envW cfgW sPlay =
      { sPlay with t := sPlay.t + 1 / 60 * envW.timeScale,
                   position := (calculatePhysics (sPlay.t + 1 / 60 * envW.timeScale)
                     envW sPlay.startPosition (getInitialState cfgW envW).vel).position,
                   velocity := { x := 0, y := 0 },
                   isPlaying := false, isFinished := true } :=
  tick_collision_finishes envW cfgW sPlay rfl rfl
    (by
      simp [checkCollision, calculatePhysics, getInitialState, cfgW, envW,
        sPlay, toRad, INCLINE_LENGTH]
      norm_num)
    (by norm_num [sPlay, envW])

/-- C6: no reachable state is simultaneously playing and finished: every
state produced by creation, a config edit, an environment change, launch,
launch-all, reset-all, or a tick satisfies the flag invariant whenever its
input state does. -/
theorem flag_invariant_preserved :
    (∀ (cfg : ProjectileConfig) (env : EnvironmentConfig),
      FlagInv (createState cfg env)) ∧
    (∀ (cfg : ProjectileConfig) (env : EnvironmentConfig) (s : SimulationState),
      FlagInv (updateConfigState cfg env s)) ∧
    (∀ (cfg : ProjectileConfig) (env : EnvironmentConfig) (s : SimulationState),
      FlagInv s → FlagInv (envChangeState cfg env s)) ∧
    (∀ (cfg : ProjectileConfig) (env : EnvironmentConfig) (s : SimulationState),
      FlagInv (launchState cfg env s)) ∧
    (∀ (cfg : ProjectileConfig) (env : EnvironmentConfig),
      FlagInv (launchAllState cfg env)) ∧
    (∀ (cfg : ProjectileConfig) (env : EnvironmentConfig),
      FlagInv (resetAllState cfg env)) ∧
    (∀ (env : EnvironmentConfig) (cfg : ProjectileConfig) (s : SimulationState),
      FlagInv s → FlagInv (tick env cfg s)) := by
  refine ⟨fun cfg env => ?_, fun cfg env s => ?_, fun cfg env s h => ?_,
    fun cfg env s => ?_, fun cfg env => ?_, fun cfg env => ?_,
    fun env cfg s h => ?_⟩
  · simp [createState, FlagInv]
  · simp [updateConfigState, FlagInv]
  · simp only [envChangeState]
    split_ifs with h1
    · exact h
    · exact h
  · simp only [launchState]
    split_ifs with h1 h2
    · simp [FlagInv]
    · simp [FlagInv]
    · simp only [FlagInv]
      intro hcontra
      exact h2 hcontra.2
  · simp [launchAllState, FlagInv]
  · simp [resetAllState, FlagInv]
  · simp only [tick]
    split_ifs with h1 h2 h3 h4
    · exact h
    · simp [FlagInv]
    · simp [FlagInv]
    · simp only [FlagInv]
      intro hcontra
      exact h1 (Or.inr hcontra.2)
    · simp only [FlagInv]
      intro hcontra
      exact h1 (Or.inr hcontra.2)

theorem flag_invariant_preserved_witness :
    FlagInv (envChangeState cfgW envW sIdle) ∧ FlagInv (tick envW cfgW sIdle) :=
  ⟨flag_invariant_preserved.2.2.1 cfgW envW sIdle (by simp [FlagInv, sIdle]),
   flag_invariant_preserved.2.2.2.2.2.2 envW cfgW sIdle (by simp [FlagInv, sIdle])⟩

/-- C8: relaunching a finished projectile resets to t = 0, playing, not
finished, with position, start position, velocity and path all recomputed
by the initial-state resolver from the current config and environment; no
field of the pre-collision state is reused. -/
theorem launchState_relaunch (cfg : ProjectileConfig)
    (env : EnvironmentConfig) (s : SimulationState)
    (hp : s.isPlaying = false) (hf : s.isFinished = true) :
    launchState cfg env s =
      { t := 0, isPlaying := true, isFinished := false,
        position := (getInitialState cfg env).pos,
        startPosition := (getInitialState cfg env).pos,
        velocity := (getInitialState cfg env).vel,
        path := [(getInitialState cfg env).pos] } := by
  simp [launchState, hp, hf]

theorem launchState_relaunch_witness :
    launchState cfgW envW sFin =
      { t := 0, isPlaying := true, isFinished := false,
        position := (getInitialState cfgW envW).pos,
        startPosition := (getInitialState cfgW envW).pos,
        velocity := (getInitialState cfgW envW).vel,
        path := [(getInitialState cfgW envW).pos] } :=
  launchState_relaunch cfgW envW sFin rfl rfl

/-- C9: a tick of a playing projectile whose next position is no collision
hit but is far below the floor or far past the horizontal bound finishes
the projectile while keeping time, position, velocity (not zeroed) and
path at their last committed values; only the two flags change. -/
theorem tick_out_of_bounds (env : EnvironmentConfig)
    (cfg : ProjectileConfig) (s : SimulationState)
    (hp : s.isPlaying = true) (hf : s.isFinished = false)
    (hnc : ¬checkCollision (calculatePhysics (s.t + 1 / 60 * env.timeScale) env
            s.startPosition (getInitialState cfg env).vel).position
            env.angleIncline)
    (hob : (calculatePhysics (s.t + 1 / 60 * env.timeScale) env
            s.startPosition (getInitialState cfg env).vel).position.y < -30 ∨
           (calculatePhysics (s.t + 1 / 60 * env.timeScale) env
            s.startPosition (getInitialState cfg env).vel).position.x > 250) :
    tick env cfg s = { s with isPlaying := false, isFinished := true } := by
  obtain ⟨t0, pl, fin, pos0, sp0, vel0, path0⟩ := s
  subst hp
  subst hf
  simp only [tick]
  rw [if_neg (show ¬(¬True ∨ ((false : Bool) = true)) by simp)]
  rw [if_neg fun hcontra => hnc hcontra.1]
  rw [if_pos hob]

/-! Machinery for evaluating the prediction loop. -/

lemma predictLoop_succ_stop (env : EnvironmentConfig) (p v : Vector2)
    (n : ℕ) (t : ℝ) (hle : t ≤ 10)
    (hb : (checkCollision (calculatePhysics t env p v).position
            env.angleIncline ∧ t > 0.1) ∨
          (calculatePhysics t env p v).position.y < -10) :
    predictLoop env p v (n + 1) t = [(calculatePhysics t env p v).position] := by
  simp only [predictLoop]
  rw [if_pos hle, if_pos hb]

lemma predictLoop_succ_go (env : EnvironmentConfig) (p v : Vector2)
    (n : ℕ) (t : ℝ) (hle : t ≤ 10)
    (hnb : ¬((checkCollision (calculatePhysics t env p v).position
            env.angleIncline ∧ t > 0.1) ∨
          (calculatePhysics t env p v).position.y < -10)) :
    predictLoop env p v (n + 1) t =
      (calculatePhysics t env p v).position :: predictLoop env p v n (t + 0.1) := by
  simp only [predictLoop]
  rw [if_pos hle, if_neg hnb]

lemma predictLoop_run (env : EnvironmentConfig) (p v : Vector2) :
    ∀ (m n : ℕ) (t : ℝ), m < n →
    (∀ j : ℕ, j ≤ m → t + j * 0.1 ≤ 10) →
    (∀ j : ℕ, j < m →
      ¬((checkCollision (calculatePhysics (t + j * 0.1) env p v).position
            env.angleIncline ∧ t + j * 0.1 > 0.1) ∨
          (calculatePhysics (t + j * 0.1) env p v).position.y < -10)) →
    ((checkCollision (calculatePhysics (t + m * 0.1) env p v).position
        env.angleIncline ∧ t + m * 0.1 > 0.1) ∨
      (calculatePhysics (t + m * 0.1) env p v).position.y < -10) →
    predictLoop env p v n t =
      (List.range (m + 1)).map (fun j : ℕ =>
        (calculatePhysics (t + j * 0.1) env p v).position) := by
  intro m
  induction m with
  | zero =>
    intro n t hmn h10 _ hb
    obtain ⟨k, rfl⟩ : ∃ k, n = k + 1 := ⟨n - 1, by omega⟩
    have ht0 : t + ((0 : ℕ) : ℝ) * 0.1 = t := by norm_num
    rw [ht0] at hb
    rw [predictLoop_succ_stop env p v k t (by simpa [ht0] using h10 0 le_rfl) hb]
    rw [List.range_succ, List.range_zero]
    simp only [List.nil_append, List.map_cons, List.map_nil]
    rw [ht0]
  | succ m ih =>
    intro n t hmn h10 hnb hb
    obtain ⟨k, rfl⟩ : ∃ k, n = k + 1 := ⟨n - 1, by omega⟩
    have ht0 : t + ((0 : ℕ) : ℝ) * 0.1 = t := by norm_num
    have hnb0 := hnb 0 (Nat.succ_pos m)
    rw [ht0] at hnb0
    rw [predictLoop_succ_go env p v k t (by simpa [ht0] using h10 0 (Nat.zero_le _)) hnb0]
    have hstep : ∀ j : ℕ, t + 0.1 + (j : ℝ) * 0.1 = t + ((j + 1 : ℕ) : ℝ) * 0.1 := by
      intro j
      push_cast
      ring
    rw [ih k (t + 0.1) (by omega)
      (fun j hj => by rw [hstep j]; exact h10 (j + 1) (by omega))
      (fun j hj => by rw [hstep j]; exact hnb (j + 1) (by omega))
      (by rw [hstep m]; exact hb)]
    conv_rhs => rw [List.range_succ_eq_map, List.map_cons, List.map_map]
    congr 1
    · rw [ht0]
    · refine List.map_congr_left fun j hj => ?_
      simp only [Function.comp_apply]
      have harg : t + 0.1 + (j : ℝ) * 0.1 = t + ((Nat.succ j : ℕ) : ℝ) * 0.1 := by
        push_cast
        ring
      rw [harg]

/-! Evaluation of the scenario initial state and collision geometry. -/

lemma envC7_angle : toRad envC7.angleIncline = π / 6 := by
  simp only [envC7]
  unfold toRad
  ring

lemma cfgC7_total : toRad envC7.angleIncline + toRad cfgC7.angleLaunch = π / 4 + π / 6 := by
  simp only [envC7, cfgC7]
  unfold toRad
  ring

lemma initC7_pos : (getInitialState cfgC7 envC7).pos = ⟨0, 0⟩ := by
  simp [getInitialState, cfgC7]

lemma initC7_vel : (getInitialState cfgC7 envC7).vel =
    ⟨25 * (Real.sqrt 2 / 2 * (Real.sqrt 3 / 2) - Real.sqrt 2 / 2 * (1 / 2)),
     25 * (Real.sqrt 2 / 2 * (Real.sqrt 3 / 2) + Real.sqrt 2 / 2 * (1 / 2))⟩ := by
  simp only [getInitialState]
  rw [cfgC7_total, Real.cos_add, Real.sin_add, Real.cos_pi_div_four,
    Real.sin_pi_div_four, Real.cos_pi_div_six, Real.sin_pi_div_six]
  simp only [cfgC7]

lemma posC7_eval (t : ℝ) :
    (calculatePhysics t envC7 (getInitialState cfgC7 envC7).pos
      (getInitialState cfgC7 envC7).vel).position =
    ⟨25 * (Real.sqrt 2 / 2 * (Real.sqrt 3 / 2) - Real.sqrt 2 / 2 * (1 / 2)) * t,
     25 * (Real.sqrt 2 / 2 * (Real.sqrt 3 / 2) + Real.sqrt 2 / 2 * (1 / 2)) * t -
       0.5 * 9.81 * t * t⟩ := by
  rw [initC7_pos, initC7_vel]
  simp only [calculatePhysics, envC7]
  ext <;> simp

lemma checkCollisionC7_poly (t : ℝ) :
    checkCollision (calculatePhysics t envC7 (getInitialState cfgC7 envC7).pos
      (getInitialState cfgC7 envC7).vel).position envC7.angleIncline ↔
    (25 / 2 * Real.sqrt 2 * t - 2.4525 * Real.sqrt 3 * (t * t) ≤ 0.05 ∧
     (25 / 2 * Real.sqrt 2 * t - 2.4525 * (t * t) ≥ -5 ∧
      25 / 2 * Real.sqrt 2 * t - 2.4525 * (t * t) ≤ 120)) := by
  have h3 : Real.sqrt 3 ^ 2 = 3 := Real.sq_sqrt (by norm_num)
  have hkey : 25 * Real.sqrt 2 * t / 8 * (Real.sqrt 3 ^ 2 - 3) = 0 := by
    rw [h3]
    ring
  rw [posC7_eval]
  simp only [checkCollision, INCLINE_LENGTH, envC7_angle, Real.sin_pi_div_six,
    Real.cos_pi_div_six]
  constructor
  · rintro ⟨hA, hB, hC⟩
    exact ⟨by nlinarith [hkey], by nlinarith [hkey], by nlinarith [hkey]⟩
  · rintro ⟨hA, hB, hC⟩
    exact ⟨by nlinarith [hkey], by nlinarith [hkey], by nlinarith [hkey]⟩

lemma noBreakC7 (t : ℝ) (h0 : 0 ≤ t) (h41 : t ≤ 4.1) :
    ¬((checkCollision (calculatePhysics t envC7 (getInitialState cfgC7 envC7).pos
          (getInitialState cfgC7 envC7).vel).position envC7.angleIncline ∧
        t > 0.1) ∨
      (calculatePhysics t envC7 (getInitialState cfgC7 envC7).pos
          (getInitialState cfgC7 envC7).vel).position.y < -10) := by
  rintro (⟨hcol, ht01⟩ | hy)
  · rw [checkCollisionC7_poly] at hcol
    obtain ⟨hperp, -, -⟩ := hcol
    nlinarith [hperp, sqrt2_gt, sqrt3_lt,
      mul_nonneg (by linarith : (0 : ℝ) ≤ t - 0.1) (by linarith : (0 : ℝ) ≤ 4.1 - t),
      mul_nonneg (by linarith [sqrt2_gt] : (0 : ℝ) ≤ Real.sqrt 2 - 1.4142) h0,
      mul_nonneg (by linarith [sqrt3_lt] : (0 : ℝ) ≤ 1.73206 - Real.sqrt 3)
        (mul_self_nonneg t)]
  · rw [posC7_eval] at hy
    simp only at hy
    have hbracket : 0 ≤ 25 * Real.sqrt 2 / 4 * (Real.sqrt 3 + 1) - 4.905 * t := by
      nlinarith [sqrt2_gt, sqrt3_gt, h41,
        mul_nonneg (by linarith [sqrt2_gt] : (0 : ℝ) ≤ Real.sqrt 2 - 1.4142)
          (by linarith [sqrt3_gt] : (0 : ℝ) ≤ Real.sqrt 3 - 1.73205)]
    nlinarith [hy, mul_nonneg h0 hbracket]

lemma breakC7_hit :
    checkCollision (calculatePhysics 4.2 envC7 (getInitialState cfgC7 envC7).pos
      (getInitialState cfgC7 envC7).vel).position envC7.angleIncline := by
  rw [checkCollisionC7_poly]
  refine ⟨?_, ?_, ?_⟩
  · nlinarith [sqrt2_lt, sqrt3_gt]
  · nlinarith [sqrt2_gt]
  · nlinarith [sqrt2_lt]

/-- C7: for the configuration v0 = 25, launch 45 degrees, Bottom start and
the environment incline 30 degrees, g = 9.81, the trajectory predictor
returns a finite sequence sampled every 0.1 s within the 10 s lookahead
horizon, and its final element satisfies the collision predicate or has
fallen below y = -10. -/
theorem predictTrajectory_scenario :
    ∃ (n : ℕ) (p : Vector2),
      predictTrajectory cfgC7 envC7 =
        (List.range (n + 1)).map (fun j : ℕ =>
          (calculatePhysics ((j : ℝ) * 0.1) envC7 (getInitialState cfgC7 envC7).pos
            (getInitialState cfgC7 envC7).vel).position) ∧
      (n : ℝ) * 0.1 ≤ 10 ∧
      (predictTrajectory cfgC7 envC7).getLast? = some p ∧
      (checkCollision p envC7.angleIncline ∨ p.y < -10) := by
  have h42 : (0 : ℝ) + ((42 : ℕ) : ℝ) * 0.1 = 4.2 := by norm_num
  have hmap : predictTrajectory cfgC7 envC7 =
      (List.range (42 + 1)).map (fun j : ℕ =>
        (calculatePhysics ((j : ℝ) * 0.1) envC7 (getInitialState cfgC7 envC7).pos
          (getInitialState cfgC7 envC7).vel).position) := by
    have hrun := predictLoop_run envC7 (getInitialState cfgC7 envC7).pos
      (getInitialState cfgC7 envC7).vel 42 102 0 (by omega)
      (fun j hj => by
        have hjr : (j : ℝ) ≤ 42 := by exact_mod_cast hj
        nlinarith [hjr])
      (fun j hj => by
        have hjr : (j : ℝ) ≤ 41 := by exact_mod_cast Nat.lt_succ_iff.mp (by omega)
        have h1 : (0 : ℝ) + (j : ℝ) * 0.1 = (j : ℝ) * 0.1 := by ring
        rw [h1]
        exact noBreakC7 _ (by positivity) (by nlinarith [hjr]))
      (by
        rw [h42]
        exact Or.inl ⟨breakC7_hit, by norm_num⟩)
    rw [show predictTrajectory cfgC7 envC7 =
      predictLoop envC7 (getInitialState cfgC7 envC7).pos
        (getInitialState cfgC7 envC7).vel 102 0 from rfl]
    rw [hrun]
    refine List.map_congr_left fun j hj => ?_
    norm_num
  refine ⟨42, (calculatePhysics 4.2 envC7 (getInitialState cfgC7 envC7).pos
    (getInitialState cfgC7 envC7).vel).position, hmap, by norm_num, ?_,
    Or.inl breakC7_hit⟩
  rw [hmap, List.range_succ, List.map_append]
  simp only [List.map_cons, List.map_nil]
  rw [List.getLast?_concat]
  congr 1
  norm_num

theorem tick_out_of_bounds_witness :
    tick envW cfgW sOob = { sOob with isPlaying := false, isFinished := true } :=
  tick_out_of_bounds envW cfgW sOob rfl rfl
    (by
      simp [checkCollision, calculatePhysics, getInitialState, cfgW, envW,
        sOob, toRad, INCLINE_LENGTH]
      norm_num)
    (by
      right
      simp [calculatePhysics, getInitialState, cfgW, envW, sOob, toRad]
      norm_num)

end InclineSim
